import Mathlib

/-!
# Verification of the Udaan education PvP application

A shallow embedding, in Lean 4, of the scoring, experience, ranking,
matchmaking and AI-chat-fallback logic of the repository, together with
theorems settling the specification's claims about them.

Conventions used throughout:
* JavaScript numbers that only ever hold small integers are modelled as
  `Nat`/`Int`; the one place where fractional arithmetic matters
  (`calculateExpGained`) is modelled over `ℚ` with `Math.round` as
  `⌊x + 1/2⌋`, its behaviour on the non-negative values that occur.
* JavaScript `null` is `Option.none`; a `parseInt` that can yield `NaN`
  is `String.toInt?` (`NaN`, like `none`, compares unequal to every
  stored index).
* React component state is a structure, and each user interaction or
  timer callback is a function from state to state.
-/

/-- JavaScript `String.prototype.toLowerCase()` (on the ASCII texts the
application compares), as a structural map over the character data. -/
def jsToLower (s : String) : String := ⟨s.data.map Char.toLower⟩

/-- Accumulate a decimal digit list into a number. -/
def digitsToNat : List Char → Nat → Nat
  | [], acc => acc
  | c :: cs, acc => digitsToNat cs (acc * 10 + (c.toNat - 48))

/-- JavaScript `parseInt` on the strings the radio group produces: a
non-empty all-digit string parses to its value, anything else is `NaN`
(modelled `none`; like `NaN`, it compares unequal to every index). -/
def jsParseInt (s : String) : Option Int :=
  match s.toList with
  | [] => none
  | cs => if cs.all Char.isDigit then some (digitsToNat cs 0) else none

/-- `sub` is a leading segment of `s` (character lists). -/
def leadsWith : List Char → List Char → Bool
  | [], _ => true
  | _ :: _, [] => false
  | a :: as, b :: bs => a == b && leadsWith as bs

/-- `sub` occurs contiguously somewhere in `s` (character lists). -/
def hasSub (sub : List Char) : List Char → Bool
  | [] => leadsWith sub []
  | c :: rest => leadsWith sub (c :: rest) || hasSub sub rest

/-- JavaScript `s.includes(sub)`. -/
def strIncludes (s sub : String) : Bool := hasSub sub.toList s.toList

/-- JavaScript `Math.round` on the non-negative rationals produced by the
experience formula: round half up, `⌊x + 1/2⌋`. -/
def jsRound (x : ℚ) : ℤ := ⌊x + 1/2⌋

/-- `GameMode` from GameRouter.tsx: `'comprehension' | 'spellbee'`. -/
inductive GameMode
  | comprehension
  | spellbee
deriving Repr, DecidableEq

/-- `SpellingWord` from useContent (the shape consumed by SpellingBee.tsx). -/
structure SpellingWord where
  id : String
  word : String
  definition : String
  difficulty_level : String
  pronunciation : String
  subject_category : String
deriving Repr, DecidableEq

/-- `Question` from ComprehensionBattle.tsx (options flattened from
`option_a..option_d`; `correct_answer` is an index). -/
structure Question where
  id : String
  question : String
  options : List String
  correctAnswer : Int
  explanation : Option String
deriving Repr, DecidableEq

/-- The shape of `arr.reduce((score, x, index) => cond(index, x) ? score + 1 : score, init)`:
a counting fold that also tracks the element index. -/
def reduceCount {α : Type} (cond : Nat → α → Bool) : List α → Nat → Nat → Nat
  | [], _, score => score
  | a :: rest, i, score =>
      reduceCount cond rest (i + 1) (if cond i a then score + 1 else score)

namespace SpellingBee

/-- The per-word test in `finishGame` of SpellingBee.tsx:
`answer.toLowerCase() === words[index].word.toLowerCase()`.  An index past
the end of `words` (never reached in a run, where the answer and word lists
have equal length) counts as no match. -/
def matchAt (words : List SpellingWord) (i : Nat) (answer : String) : Bool :=
  match words[i]? with
  | some w => jsToLower answer == jsToLower w.word
  | none => false

/-- The `reduce` in `finishGame` of SpellingBee.tsx computing the final
score from the merged answer list. -/
def scoreOf (words : List SpellingWord) (finalAnswers : List String) : Nat :=
  reduceCount (fun i a => matchAt words i a) finalAnswers 0 0

/-- The `finalAnswers` expression in `finishGame` of SpellingBee.tsx: when
the pending input is non-empty (JavaScript truthiness of `userInput`) it is
trimmed and spliced over the recorded answer at the current index. -/
def finalAnswers (answers : List String) (userInput : String) (currentWord : Nat) :
    List String :=
  if userInput == "" then answers
  else answers.take currentWord ++ [userInput.trim] ++ answers.drop (currentWord + 1)

/-- `finishGame` of SpellingBee.tsx, as the pure pair
`(finalScore, words.length)` that it passes to `onGameEnd`. -/
def finishGame (words : List SpellingWord) (answers : List String)
    (userInput : String) (currentWord : Nat) : Nat × Nat :=
  (scoreOf words (finalAnswers answers userInput currentWord), words.length)

end SpellingBee

/-- Spelling-Bee scoring as claim C1 words it: the count of answers equal
to the stored word under EXACT string comparison (no lowercasing). -/
def exactWordScoreSpec (answers : List String) (words : List SpellingWord) : Nat :=
  (answers.zip words).countP fun p => p.1 == p.2.word

/-- Spelling-Bee scoring, case-insensitively: the count of answers equal to
the stored word after lowercasing both sides. -/
def ciWordScore (answers : List String) (words : List SpellingWord) : Nat :=
  (answers.zip words).countP fun p => jsToLower p.1 == jsToLower p.2.word

namespace ComprehensionBattle

/-- The per-question test in `finishGame` of ComprehensionBattle.tsx:
`answer === questions[index].correctAnswer`, where `answer` is
`number | null` (a `null`, like an out-of-range index, never matches). -/
def matchAt (questions : List Question) (i : Nat) (answer : Option Int) : Bool :=
  match questions[i]? with
  | some q => answer == some q.correctAnswer
  | none => false

/-- The `reduce` in `finishGame` of ComprehensionBattle.tsx. -/
def scoreOf (questions : List Question) (finalAnswers : List (Option Int)) : Nat :=
  reduceCount (fun i a => matchAt questions i a) finalAnswers 0 0

/-- The `finalAnswers` expression in `finishGame` of ComprehensionBattle.tsx:
a pending radio selection (non-empty string) is parsed with `parseInt` and
spliced over the recorded answer at the current index. -/
def finalAnswers (answers : List (Option Int)) (selectedAnswer : String)
    (currentQuestion : Nat) : List (Option Int) :=
  if selectedAnswer == "" then answers
  else answers.take currentQuestion ++ [jsParseInt selectedAnswer]
    ++ answers.drop (currentQuestion + 1)

/-- `finishGame` of ComprehensionBattle.tsx, as the pure pair
`(finalScore, questions.length)` that it passes to `onGameEnd`. -/
def finishGame (questions : List Question) (answers : List (Option Int))
    (selectedAnswer : String) (currentQuestion : Nat) : Nat × Nat :=
  (scoreOf questions (finalAnswers answers selectedAnswer currentQuestion),
    questions.length)

end ComprehensionBattle

namespace ComprehensionBattle

/-- `gamePhase` of ComprehensionBattle.tsx:
`'loading' | 'reading' | 'questions' | 'finished'`. -/
inductive Phase
  | loading
  | reading
  | questions
  | finished
deriving Repr, DecidableEq

/-- Position of a phase along the intended linear flow. -/
def phaseIdx : Phase → Nat
  | .loading => 0
  | .reading => 1
  | .questions => 2
  | .finished => 3

/-- The component state of ComprehensionBattle.tsx (the `useState` cells
that drive control flow and scoring). -/
structure State where
  questions : List Question
  currentQuestion : Nat
  selectedAnswer : String
  answers : List (Option Int)
  timeLeft : Nat
  phase : Phase
  readingTimeLeft : Nat
  score : Nat
deriving Repr, DecidableEq

/-- The initial `useState` values of ComprehensionBattle.tsx. -/
def init : State :=
  { questions := [], currentQuestion := 0, selectedAnswer := "", answers := []
    timeLeft := 300, phase := .loading, readingTimeLeft := 120, score := 0 }

/-- The interactions and timer callbacks of ComprehensionBattle.tsx. -/
inductive Event
  | contentLoaded (qs : List Question)
  | readingTick
  | imReady
  | quizTick
  | selectAnswer (value : String)
  | nextQuestion
  | previousQuestion
deriving Repr, DecidableEq

/-- The content-load effect: content (or the fallback content) arrives, the
answer slots are recreated and the phase becomes `reading`.  The source
effect has no phase guard and its dependency `getRandomPassage` is a fresh
closure on every render of `useContent`, so the effect re-runs after every
render — every run, database path and fallback alike, ends in
`setGamePhase('reading')`, from whatever phase the flow is in. -/
def load (s : State) (qs : List Question) : State :=
  { s with questions := qs, answers := List.replicate qs.length none
           phase := .reading }

/-- The reading-phase timer effect: decrement `readingTimeLeft`, and at zero
move to the `questions` phase. -/
def readingTick (s : State) : State :=
  if s.phase == .reading then
    if s.readingTimeLeft > 0 then { s with readingTimeLeft := s.readingTimeLeft - 1 }
    else { s with phase := .questions }
  else s

/-- `startQuestions` (the "I'm Ready for Questions" button, rendered only in
the reading phase). -/
def startQuestions (s : State) : State :=
  if s.phase == .reading then { s with phase := .questions } else s

/-- The state after `finishGame` runs: the score is computed from the state
the closure captured, and the phase becomes `finished`. -/
def finish (s : State) : State :=
  { s with
    score := scoreOf s.questions (finalAnswers s.answers s.selectedAnswer s.currentQuestion)
    phase := .finished }

/-- The questions-phase timer effect: decrement `timeLeft`, and at zero call
`finishGame`. -/
def quizTick (s : State) : State :=
  if s.phase == .questions then
    if s.timeLeft > 0 then { s with timeLeft := s.timeLeft - 1 }
    else finish s
  else s

/-- `handleAnswerSelect` (the radio group, rendered only in the questions
phase). -/
def select (s : State) (value : String) : State :=
  if s.phase == .questions then { s with selectedAnswer := value } else s

/-- `handleNextQuestion` (the Next / Finish Game button, rendered only in the
questions phase and disabled while no option is selected).  On the last
question `finishGame` runs against the state its closure captured — the
pending selection is merged by `finishGame`'s own splice — while the queued
`setAnswers`/`setSelectedAnswer` updates still land. -/
def next (s : State) : State :=
  if s.phase == .questions && s.selectedAnswer != "" then
    if s.currentQuestion < s.questions.length - 1 then
      { s with answers := s.answers.set s.currentQuestion (jsParseInt s.selectedAnswer)
               selectedAnswer := ""
               currentQuestion := s.currentQuestion + 1 }
    else
      { finish s with
          answers := s.answers.set s.currentQuestion (jsParseInt s.selectedAnswer)
          selectedAnswer := "" }
  else s

/-- The Previous button (rendered only in the questions phase, disabled at
question 0): `setCurrentQuestion(Math.max(0, currentQuestion - 1))`. -/
def previous (s : State) : State :=
  if s.phase == .questions && s.currentQuestion != 0 then
    { s with currentQuestion := max 0 (s.currentQuestion - 1) }
  else s

/-- One step of the ComprehensionBattle flow. -/
def step (s : State) : Event → State
  | .contentLoaded qs => load s qs
  | .readingTick => readingTick s
  | .imReady => startQuestions s
  | .quizTick => quizTick s
  | .selectAnswer v => select s v
  | .nextQuestion => next s
  | .previousQuestion => previous s

/-- Run a sequence of events from a state. -/
def run (s : State) : List Event → State
  | [] => s
  | e :: es => run (step s e) es

end ComprehensionBattle

namespace SpellingBee

/-- `gamePhase` of SpellingBee.tsx: `'playing' | 'finished'` (loading is a
separate boolean cell). -/
inductive Phase
  | playing
  | finished
deriving Repr, DecidableEq

/-- Position of a phase along the intended linear flow. -/
def phaseIdx : Phase → Nat
  | .playing => 0
  | .finished => 1

/-- The component state of SpellingBee.tsx. -/
structure State where
  words : List SpellingWord
  loading : Bool
  currentWord : Nat
  userInput : String
  answers : List String
  timeLeft : Nat
  phase : Phase
  score : Nat
  showHint : Bool
deriving Repr, DecidableEq

/-- The initial `useState` values of SpellingBee.tsx. -/
def init : State :=
  { words := [], loading := true, currentWord := 0, userInput := "", answers := []
    timeLeft := 180, phase := .playing, score := 0, showHint := false }

/-- The interactions and timer callback of SpellingBee.tsx. -/
inductive Event
  | wordsLoaded (ws : List SpellingWord)
  | tick
  | setInput (value : String)
  | nextWord
  | skipWord
  | toggleHint
deriving Repr, DecidableEq

/-- The word-load effect: the words (or the fallback sample words) arrive
and the answer slots are recreated.  As in ComprehensionBattle, the source
effect has no guard and its dependency `getRandomSpellingWords` is a fresh
closure on every render, so the effect re-runs after every render,
overwriting `words`/`answers` and clearing `loading`; it never touches
`gamePhase`, `currentWord` or `userInput`. -/
def load (s : State) (ws : List SpellingWord) : State :=
  { s with words := ws, answers := List.replicate ws.length "", loading := false }

/-- The state after `finishGame` runs: score from the captured state, phase
`finished`. -/
def finish (s : State) : State :=
  { s with score := (finishGame s.words s.answers s.userInput s.currentWord).1
           phase := .finished }

/-- The game timer effect: decrement `timeLeft`, and at zero call
`finishGame`. -/
def tick (s : State) : State :=
  if s.phase == .playing then
    if s.timeLeft > 0 then { s with timeLeft := s.timeLeft - 1 } else finish s
  else s

/-- `handleInputChange` (the input box, rendered only while playing and
loaded). -/
def setInput (s : State) (value : String) : State :=
  if s.phase == .playing && !s.loading then { s with userInput := value } else s

/-- `handleNextWord` (the Next Word / Finish Game button, disabled while the
trimmed input is empty).  On the last word `finishGame` runs against the
captured state — its own splice merges the pending input — while the queued
answer/input updates still land. -/
def nextWord (s : State) : State :=
  if s.phase == .playing && !s.loading && s.userInput.trim != "" then
    if s.currentWord < s.words.length - 1 then
      { s with answers := s.answers.set s.currentWord s.userInput.trim
               userInput := "", showHint := false
               currentWord := s.currentWord + 1 }
    else
      { finish s with
          answers := s.answers.set s.currentWord s.userInput.trim
          userInput := "", showHint := false }
  else s

/-- `handleSkipWord` (the Skip Word button): records an empty answer and
advances; skipping the last word calls `finishGame` on the captured state. -/
def skipWord (s : State) : State :=
  if s.phase == .playing && !s.loading then
    if s.currentWord < s.words.length - 1 then
      { s with answers := s.answers.set s.currentWord ""
               userInput := "", showHint := false
               currentWord := s.currentWord + 1 }
    else
      { finish s with
          answers := s.answers.set s.currentWord ""
          userInput := "", showHint := false }
  else s

/-- `toggleHint`. -/
def toggle (s : State) : State :=
  if s.phase == .playing && !s.loading then { s with showHint := !s.showHint } else s

/-- One step of the SpellingBee flow. -/
def step (s : State) : Event → State
  | .wordsLoaded ws => load s ws
  | .tick => tick s
  | .setInput v => setInput s v
  | .nextWord => nextWord s
  | .skipWord => skipWord s
  | .toggleHint => toggle s

end SpellingBee

namespace GameRouter

/-- `calculateExpGained` from GameRouter.tsx (duplicated verbatim in the
match-history hook and the PvP page):
`baseExp = comprehension ? 10 : 15`, `maxBonus = comprehension ? 15 : 15`,
result `Math.round(baseExp + maxBonus * (score / total))`.  Numbers are
modelled as exact rationals. -/
def calculateExpGained (score total : ℚ) (gameMode : GameMode) : ℤ :=
  let baseExp : ℚ := if gameMode = .comprehension then 10 else 15
  let maxBonus : ℚ := if gameMode = .comprehension then 15 else 15
  jsRound (baseExp + maxBonus * (score / total))

end GameRouter

/-- The `update_user_rank` trigger function of the initial migration (kept
verbatim by the later `search_path` migration):
`NEW.rank = GREATEST(1, NEW.exp / 100 + 1)`, where `/` is PostgreSQL's
truncating integer division (`Int.tdiv`). -/
def update_user_rank (exp : ℤ) : ℤ := max 1 (Int.tdiv exp 100 + 1)

namespace Matchmaking

/-- A `matchmaking_queue` row, as inserted by `joinQueue` in
useMatchmaking.ts. -/
structure QueueEntry where
  player_id : String
  game_mode : GameMode
  skill_level : Nat
deriving Repr, DecidableEq

/-- The database operations the matchmaking hook issues against the
`matchmaking_queue` table. -/
inductive QueueOp
  | deleteByPlayer (player_id : String)
  | insertEntry (e : QueueEntry)
deriving Repr, DecidableEq

/-- Effect of one operation on the queue table:
`delete().eq('player_id', pid)` removes exactly the rows whose `player_id`
equals `pid`; `insert(row)` appends the row. -/
def applyOp (q : List QueueEntry) : QueueOp → List QueueEntry
  | .deleteByPlayer pid => q.filter fun e => e.player_id != pid
  | .insertEntry e => q ++ [e]

/-- Effect of a sequence of operations, in order. -/
def applyOps (q : List QueueEntry) : List QueueOp → List QueueEntry
  | [] => q
  | op :: rest => applyOps (applyOp q op) rest

/-- `leaveQueue` in useMatchmaking.ts (authenticated caller `uid`): the one
operation `delete().eq('player_id', user.id)`. -/
def leaveQueue (uid : String) : List QueueOp := [.deleteByPlayer uid]

/-- `joinQueue` in useMatchmaking.ts (authenticated caller `uid`): first
`delete().eq('player_id', user.id)`, then insert one row
`{player_id: user.id, game_mode: gameMode, skill_level: 1}`. -/
def joinQueue (uid : String) (gameMode : GameMode) : List QueueOp :=
  [.deleteByPlayer uid, .insertEntry ⟨uid, gameMode, 1⟩]

end Matchmaking

namespace AIService

/-- `AIResponse` from aiService.ts (optional fields present in every value
the service actually builds). -/
structure AIResponse where
  message : String
  suggestions : List String
  relatedTopics : List String
deriving Repr, DecidableEq

/-- Identity of a provider in the `providers` array of aiService.ts (the
request/response shaping is absorbed into the fetch environment below). -/
structure AIProvider where
  name : String
  url : String
deriving Repr, DecidableEq

/-- The `providers` array of aiService.ts, in order. -/
def providers : List AIProvider :=
  [ { name := "HuggingFace"
      url := "https://api-inference.huggingface.co/models/microsoft/DialoGPT-large" }
  , { name := "FastGPT"
      url := "https://api.openai-proxy.com/v1/chat/completions" }
  , { name := "EducationalAI"
      url := "https://api.cohere.ai/v1/generate" } ]

/-- What one `fetch` in `callProvider` did: reject with a network error,
resolve non-OK, or resolve OK with a body whose `provider.parseResponse`
value was `parsed` (`null` for an unrecognised shape). -/
inductive NetResult
  | netError
  | httpNotOk (status : Nat)
  | okParsed (parsed : Option String)
deriving Repr, DecidableEq

/-- Environment of one `callProvider` call: how long the request took and
what it produced if not aborted. -/
structure FetchBehavior where
  elapsedMs : Nat
  result : NetResult
deriving Repr, DecidableEq

/-- The abort deadline `setTimeout(() => controller.abort(), 10000)` in
`callProvider`. -/
def providerTimeoutMs : Nat := 10000

/-- The failures the `try` block of `callProvider` can raise: an
`AbortError` from the 10-second timer, a network rejection, or the
`throw new Error(...)` on a non-OK HTTP status. -/
inductive ProviderFailure
  | aborted
  | network
  | httpStatus (status : Nat)
deriving Repr, DecidableEq

/-- The `try` block of `callProvider`: abort once the request outlives the
timer, propagate fetch/HTTP failures, and otherwise validate the parsed
response (`result.length > 10` and not the canned refusal). -/
def callProviderTry (b : FetchBehavior) : Except ProviderFailure (Option String) :=
  if providerTimeoutMs ≤ b.elapsedMs then .error .aborted
  else
    match b.result with
    | .netError => .error .network
    | .httpNotOk status => .error (.httpStatus status)
    | .okParsed parsed =>
        .ok (match parsed with
          | some r =>
              if decide (10 < r.length)
                  && !(strIncludes r "Sorry, I could not generate") then some r
              else none
          | none => none)

/-- `callProvider` of aiService.ts: the `catch` turns every failure into
`null`, so the function returns `Option String` and never raises. -/
def callProvider (b : FetchBehavior) : Option String :=
  match callProviderTry b with
  | .error _ => none
  | .ok r => r

/-- `array[Math.floor(Math.random() * array.length)]`, with the random draw
supplied as `rnd`. -/
def pickCanned (arr : List String) (rnd : Nat) : String :=
  arr.getD (rnd % arr.length) ""

/-- `generateSuggestions` of aiService.ts. -/
def generateSuggestions (userMessage : String) : List String :=
  let message := jsToLower userMessage
  if strIncludes message "math" then
    ["Show me examples", "Practice problems", "Explain the concept", "Related formulas"]
  else if strIncludes message "science" then
    ["Show experiments", "Explain theories", "Real-world applications", "Related concepts"]
  else if strIncludes message "history" then
    ["Key dates", "Important figures", "Cause and effect", "Timeline"]
  else
    ["Tell me more", "Give examples", "Explain simply", "Practice questions"]

/-- `generateRelatedTopics` of aiService.ts. -/
def generateRelatedTopics (userMessage : String) : List String :=
  let message := jsToLower userMessage
  if strIncludes message "math" || strIncludes message "algebra" then
    ["Geometry", "Calculus", "Statistics", "Trigonometry"]
  else if strIncludes message "science" || strIncludes message "physics" then
    ["Chemistry", "Biology", "Earth Science", "Astronomy"]
  else if strIncludes message "history" then
    ["Geography", "Political Science", "Economics", "Sociology"]
  else
    ["Study Skills", "Critical Thinking", "Research Methods", "Academic Writing"]

/-- The `mathResponses` array of `getSimulatedResponse`. -/
def mathResponses : List String :=
  [ "Mathematics is a fascinating subject! I'd be happy to help you with any math topics. Whether you're working on algebra, geometry, calculus, or basic arithmetic, I can provide explanations, examples, and practice problems. What specific area of math would you like to explore?"
  , "Great question about math! Mathematics is all about problem-solving and logical thinking. I can help you understand concepts step-by-step, provide practice problems, and show you real-world applications. What math topic are you currently studying?"
  , "I love helping with mathematics! Math builds critical thinking skills that are useful in many areas of life. From basic operations to advanced calculus, I can break down complex concepts into understandable parts. What mathematical concept would you like to explore?" ]

/-- The `scienceResponses` array of `getSimulatedResponse`. -/
def scienceResponses : List String :=
  [ "Science is all around us! I can help you understand concepts in physics, chemistry, biology, and earth science. From basic principles to complex theories, I'll break things down into easy-to-understand explanations. What scientific topic interests you most?"
  , "Excellent question about science! Science helps us understand how the world works through observation and experimentation. I can explain scientific concepts, discuss real-world applications, and help you understand the scientific method. What area of science would you like to explore?"
  , "I'm excited to help with science! Whether it's understanding chemical reactions, exploring physics principles, or learning about living organisms, science is fascinating. I can provide clear explanations and interesting examples. What scientific concept are you curious about?" ]

/-- The `historyResponses` array of `getSimulatedResponse`. -/
def historyResponses : List String :=
  [ "History helps us understand how we got to where we are today! I can discuss world history, specific time periods, historical figures, and important events. What period or aspect of history would you like to learn about?"
  , "Great interest in history! Learning about the past helps us understand the present and make better decisions for the future. I can explore different civilizations, historical events, and influential people throughout time. What historical topic interests you?"
  , "I'd love to help with history! From ancient civilizations to modern times, history is full of fascinating stories and important lessons. I can discuss causes and effects, analyze historical events, and explore how the past shapes our world today. What would you like to explore?" ]

/-- The `englishResponses` array of `getSimulatedResponse`. -/
def englishResponses : List String :=
  [ "English and literature open up worlds of creativity and communication! I can help with grammar, writing techniques, literary analysis, reading comprehension, and more. Are you working on a specific writing project or studying particular literature?"
  , "Wonderful question about English! Language and literature are powerful tools for expression and understanding. I can assist with essay writing, poetry analysis, grammar rules, and reading strategies. What aspect of English would you like to work on?"
  , "I'm here to help with English! From creative writing to literary analysis, grammar to vocabulary, English skills are essential for effective communication. I can provide writing tips, help with analysis, and explain language concepts clearly. What would you like to focus on?" ]

/-- The `studyResponses` array of `getSimulatedResponse`. -/
def studyResponses : List String :=
  [ "Great question about studying! Effective learning involves several strategies: active recall, spaced repetition, breaking information into chunks, and connecting new knowledge to what you already know. I can help you develop a personalized study plan. What subject are you studying, and what challenges are you facing?"
  , "I'm excited to help you improve your study skills! Good study habits include setting clear goals, creating a distraction-free environment, taking regular breaks, and using various learning techniques. What specific study challenges would you like to work on?"
  , "Excellent question about learning! Everyone learns differently, so it's important to find techniques that work best for you. I can help with time management, note-taking strategies, memory techniques, and test preparation. What aspect of studying would you like to improve?" ]

/-- The `greetingResponses` array of `getSimulatedResponse`. -/
def greetingResponses : List String :=
  [ "Hello! I'm your AI study assistant, and I'm excited to help you learn! I can assist with a wide range of subjects including mathematics, science, history, English, and study techniques. What would you like to explore today?"
  , "Hi there! Welcome to your personal AI tutor! I'm here to help you understand concepts, practice problems, and develop effective study strategies. Whether you need help with homework or want to learn something new, I'm ready to assist. What subject interests you?"
  , "Hey! Great to meet you! I'm your educational AI assistant, ready to help you learn and grow. From explaining complex concepts to providing study tips, I'm here to support your learning journey. What would you like to learn about today?" ]

/-- The `explanationResponses` array of `getSimulatedResponse` (each entry
interpolates the user's message). -/
def explanationResponses (userMessage : String) : List String :=
  [ "I'd be happy to explain that concept! To give you the best explanation, could you tell me more specifically what you'd like me to explain about \"" ++ userMessage ++ "\"? I can break it down step by step and provide examples."
  , "Great question! I can definitely help explain that. Let me know what specific aspect of \"" ++ userMessage ++ "\" you'd like me to focus on, and I'll provide a clear, detailed explanation with examples."
  , "Excellent inquiry! I love helping students understand new concepts. For \"" ++ userMessage ++ "\", I can provide definitions, examples, and practical applications. What level of detail would you like me to go into?" ]

/-- The `specificResponses` array of `getSimulatedResponse` (each entry
interpolates the user's message). -/
def specificResponses (userMessage : String) : List String :=
  [ "That's an interesting question about \"" ++ userMessage ++ "\"! I'm here to help you learn and understand various academic topics. Let me provide some guidance on this topic. What specific aspect would you like me to focus on?"
  , "Great question! I can see you're asking about \"" ++ userMessage ++ "\". I'd be happy to help you understand this better. Would you like me to explain the concept, provide examples, or discuss how it applies to your studies?"
  , "I appreciate your curiosity about \"" ++ userMessage ++ "\"! As your AI study assistant, I can help break this down into understandable parts. What would be most helpful - a basic explanation, detailed analysis, or practical examples?"
  , "Interesting topic! For \"" ++ userMessage ++ "\", I can provide explanations, examples, and study strategies. What specific information are you looking for, or what's challenging you about this topic?" ]

/-- `getSimulatedResponse` of aiService.ts: classify the lowercased message
by substring tests, in source order, and answer with a canned response
(random pick supplied as `rnd`) plus fixed suggestions and related
topics. -/
def getSimulatedResponse (userMessage : String) (rnd : Nat) : AIResponse :=
  let message := jsToLower userMessage
  if strIncludes message "math" || strIncludes message "mathematics"
      || strIncludes message "algebra" || strIncludes message "calculus"
      || strIncludes message "geometry" || strIncludes message "equation"
      || strIncludes message "solve" then
    { message := pickCanned mathResponses rnd
      suggestions := ["Show me algebra examples", "Explain geometry basics", "Help with calculus", "Practice arithmetic problems"]
      relatedTopics := ["Algebra", "Geometry", "Calculus", "Statistics"] }
  else if strIncludes message "science" || strIncludes message "physics"
      || strIncludes message "chemistry" || strIncludes message "biology"
      || strIncludes message "experiment" || strIncludes message "theory" then
    { message := pickCanned scienceResponses rnd
      suggestions := ["Explain physics concepts", "Chemistry basics", "Biology fundamentals", "Scientific method"]
      relatedTopics := ["Physics", "Chemistry", "Biology", "Earth Science"] }
  else if strIncludes message "history" || strIncludes message "historical"
      || strIncludes message "war" || strIncludes message "ancient"
      || strIncludes message "civilization" then
    { message := pickCanned historyResponses rnd
      suggestions := ["World War II", "Ancient civilizations", "American history", "Modern history"]
      relatedTopics := ["World History", "American History", "Ancient History", "Modern History"] }
  else if strIncludes message "english" || strIncludes message "literature"
      || strIncludes message "writing" || strIncludes message "essay"
      || strIncludes message "grammar" || strIncludes message "read" then
    { message := pickCanned englishResponses rnd
      suggestions := ["Grammar help", "Essay writing tips", "Poetry analysis", "Reading strategies"]
      relatedTopics := ["Grammar", "Creative Writing", "Literature Analysis", "Poetry"] }
  else if strIncludes message "study" || strIncludes message "learn"
      || strIncludes message "tips" || strIncludes message "help"
      || strIncludes message "how" || strIncludes message "prepare" then
    { message := pickCanned studyResponses rnd
      suggestions := ["Study schedule tips", "Memory techniques", "Note-taking strategies", "Test preparation"]
      relatedTopics := ["Study Techniques", "Memory", "Time Management", "Test Prep"] }
  else if strIncludes message "hello" || strIncludes message "hi"
      || strIncludes message "hey" || strIncludes message "start"
      || decide (message.length < 10) then
    { message := pickCanned greetingResponses rnd
      suggestions := ["Help with math problems", "Explain science concepts", "Study tips and strategies", "Writing and grammar help"]
      relatedTopics := ["Mathematics", "Science", "History", "English", "Study Skills"] }
  else if strIncludes message "explain" || strIncludes message "what is"
      || strIncludes message "define" || strIncludes message "meaning" then
    { message := pickCanned (explanationResponses userMessage) rnd
      suggestions := ["Give me examples", "Explain it simply", "Show me step by step", "Real world applications"]
      relatedTopics := ["Concepts", "Examples", "Applications", "Understanding"] }
  else
    { message := pickCanned (specificResponses userMessage) rnd
      suggestions := ["Explain the basics", "Give me examples", "Study tips for this topic", "Related concepts"]
      relatedTopics := ["Study Skills", "Academic Subjects", "Learning Strategies", "Understanding"] }

/-- The provider loop of `generateResponse`: try each remaining provider in
order (`env i` is the fetch environment of the call to provider `i`); a
`null` — which `callProvider` also returns for every caught failure —
silently advances to the next provider. -/
def tryProvidersAux (env : Nat → FetchBehavior) : List AIProvider → Nat → Option String
  | [], _ => none
  | _p :: rest, i =>
      match callProvider (env i) with
      | some r => some r
      | none => tryProvidersAux env rest (i + 1)

/-- The provider loop of `generateResponse` over the full `providers`
array. -/
def tryProviders (env : Nat → FetchBehavior) : Option String :=
  tryProvidersAux env providers 0

/-- `generateResponse` of aiService.ts.  The local keyword matcher
`getIntelligentResponse` (substring and regex matching over a fixed phrase
list) is supplied as the input `localMatch`: `some m` when a local rule
fires with message `m`, `none` otherwise.  When no local rule fires the
providers are tried in order and, if none yields a response, the canned
`getSimulatedResponse` answers. -/
def generateResponse (localMatch : Option String) (userMessage : String)
    (env : Nat → FetchBehavior) (rnd : Nat) : AIResponse :=
  match localMatch with
  | some m =>
      { message := m
        suggestions := generateSuggestions userMessage
        relatedTopics := generateRelatedTopics userMessage }
  | none =>
      match tryProviders env with
      | some r =>
          { message := r
            suggestions := generateSuggestions userMessage
            relatedTopics := generateRelatedTopics userMessage }
      | none => getSimulatedResponse userMessage rnd

end AIService

/-- The first sample word of SpellingBee.tsx, used as a concrete input. -/
def demoWord : SpellingWord :=
  { id := "1", word := "necessary"
    definition := "Required to be done, achieved, or present; needed; essential."
    difficulty_level := "medium", pronunciation := "NES-uh-ser-ee"
    subject_category := "spelling" }

/-- The first two fallback questions of ComprehensionBattle.tsx, used as a
concrete input. -/
def demoQuestions : List Question :=
  [ { id := "1"
      question := "Who proposed the famous test to measure machine intelligence?"
      options := ["Isaac Newton", "Alan Turing", "Albert Einstein", "Charles Darwin"]
      correctAnswer := 1, explanation := none }
  , { id := "2"
      question := "What does machine learning enable computers to do?"
      options := [ "Only follow pre-programmed instructions"
                 , "Learn from data without explicit programming"
                 , "Replace all human workers"
                 , "Think exactly like humans" ]
      correctAnswer := 1, explanation := none } ]

/-- A fetch environment in which every provider call fails with a network
error, used as a concrete input. -/
def demoEnv : Nat → AIService.FetchBehavior :=
  fun _ => { elapsedMs := 0, result := AIService.NetResult.netError }

/-! ## Helper lemmas -/

/-- The indexed counting fold equals a `countP` over the zip with the looked-up
list: the common shape of both games' scoring `reduce`.  The per-index
condition is abstract, constrained to agree with the lookup in `ws`. -/
theorem reduceCount_eq_countP {α β : Type} (m : α → β → Bool) (ws : List β)
    (cond : Nat → α → Bool)
    (hnone : ∀ i a, ws[i]? = none → cond i a = false)
    (hsome : ∀ i a w, ws[i]? = some w → cond i a = m a w) :
    ∀ (l : List α) (i s : Nat),
      reduceCount cond l i s = s + ((l.zip (ws.drop i)).countP fun p => m p.1 p.2) := by
  intro l
  induction l with
  | nil => intro i s; simp [reduceCount]
  | cons a rest ih =>
    intro i s
    rcases h : ws[i]? with _ | w
    · have hlen : ws.length ≤ i := List.getElem?_eq_none_iff.mp h
      have hd : ws.drop i = [] := List.drop_eq_nil_of_le hlen
      have hd2 : ws.drop (i + 1) = [] := List.drop_eq_nil_of_le (by omega)
      simp [reduceCount, hnone i a h, ih, hd, hd2]
    · obtain ⟨hi, hw⟩ := List.getElem?_eq_some.mp h
      have hd : ws.drop i = w :: ws.drop (i + 1) := by
        rw [List.drop_eq_getElem_cons hi, hw]
      simp only [reduceCount, hsome i a w h, ih, hd, List.zip_cons_cons, List.countP_cons]
      cases hm : m a w <;> simp [hm]
      all_goals omega

/-! ## Claims -/

/-- C1 (counterexample): the Spelling Bee score is NOT the count of answers
matching the stored word under exact string comparison — with the stored
word `necessary` and the recorded answer `Necessary`, `finishGame` scores 1
while the exact-comparison count is 0. -/
theorem C1_counterexample :
    (SpellingBee.finishGame [demoWord] ["Necessary"] "" 0).1 = 1
    ∧ exactWordScoreSpec ["Necessary"] [demoWord] = 0 := by
  decide

/-- C1 (amended): for every finished Spelling Bee game, the final score
equals the count of recorded answers matching the stored correct word
case-insensitively (both sides lowercased before comparison), and this
score is passed to `onGameEnd` together with the total number of words. -/
theorem C1_score_case_insensitive :
    ∀ (words : List SpellingWord) (answers : List String) (userInput : String)
      (currentWord : Nat),
      SpellingBee.finishGame words answers userInput currentWord
        = (ciWordScore (SpellingBee.finalAnswers answers userInput currentWord) words,
            words.length) := by
  intro words answers input cw
  have h := reduceCount_eq_countP
    (fun (a : String) (w : SpellingWord) => jsToLower a == jsToLower w.word) words
    (fun i a => SpellingBee.matchAt words i a)
    (fun i a hn => by simp [SpellingBee.matchAt, hn])
    (fun i a w hs => by simp [SpellingBee.matchAt, hs])
    (SpellingBee.finalAnswers answers input cw) 0 0
  simp only [List.drop_zero, Nat.zero_add] at h
  unfold SpellingBee.finishGame SpellingBee.scoreOf ciWordScore
  rw [h]

/-- C2: for every finished Comprehension Battle game, the final score equals
the count of recorded answers whose selected option index equals the stored
`correct_answer` index of the corresponding question, and this score is
passed to `onGameEnd` together with the total number of questions. -/
theorem C2_score_exact_index :
    ∀ (questions : List Question) (answers : List (Option Int))
      (selectedAnswer : String) (currentQuestion : Nat),
      ComprehensionBattle.finishGame questions answers selectedAnswer currentQuestion
        = (((ComprehensionBattle.finalAnswers answers selectedAnswer
              currentQuestion).zip questions).countP
              (fun p => p.1 == some p.2.correctAnswer),
            questions.length) := by
  intro questions answers sel cq
  have h := reduceCount_eq_countP
    (fun (a : Option Int) (q : Question) => a == some q.correctAnswer) questions
    (fun i a => ComprehensionBattle.matchAt questions i a)
    (fun i a hn => by simp [ComprehensionBattle.matchAt, hn])
    (fun i a q hs => by simp [ComprehensionBattle.matchAt, hs])
    (ComprehensionBattle.finalAnswers answers sel cq) 0 0
  simp only [List.drop_zero, Nat.zero_add] at h
  unfold ComprehensionBattle.finishGame ComprehensionBattle.scoreOf
  rw [h]

/-- Truncating division by 100 is monotone in the numerator (PostgreSQL's
integer `/`). -/
theorem tdiv_hundred_mono {x y : ℤ} (h : x ≤ y) : Int.tdiv x 100 ≤ Int.tdiv y 100 := by
  rcases le_or_lt 0 x with hx | hx
  · have hy : (0 : ℤ) ≤ y := hx.trans h
    rw [Int.tdiv_eq_ediv hx (by norm_num), Int.tdiv_eq_ediv hy (by norm_num)]
    exact Int.ediv_le_ediv (by norm_num) h
  · have ex : Int.tdiv x 100 = -Int.tdiv (-x) 100 := by
      conv_lhs => rw [show x = -(-x) by ring]
      exact Int.neg_tdiv (-x) 100
    rcases le_or_lt 0 y with hy | hy
    · have h1 : 0 ≤ Int.tdiv (-x) 100 := Int.tdiv_nonneg (by omega) (by norm_num)
      have h2 : 0 ≤ Int.tdiv y 100 := Int.tdiv_nonneg hy (by norm_num)
      omega
    · have ey : Int.tdiv y 100 = -Int.tdiv (-y) 100 := by
        conv_lhs => rw [show y = -(-y) by ring]
        exact Int.neg_tdiv (-y) 100
      have hk : Int.tdiv (-y) 100 ≤ Int.tdiv (-x) 100 := by
        rw [Int.tdiv_eq_ediv (by omega : (0:ℤ) ≤ -y) (by norm_num),
          Int.tdiv_eq_ediv (by omega : (0:ℤ) ≤ -x) (by norm_num)]
        exact Int.ediv_le_ediv (by norm_num) (by omega)
      omega

/-- C3: `calculateExpGained` is monotonic in score percentage: for every game
mode and every pair of results with the same positive total, a lower or equal
score percentage yields a lower or equal experience gain. -/
theorem C3_exp_monotonic :
    ∀ (gameMode : GameMode) (score₁ score₂ total : ℚ), 0 < total →
      score₁ / total ≤ score₂ / total →
      GameRouter.calculateExpGained score₁ total gameMode
        ≤ GameRouter.calculateExpGained score₂ total gameMode := by
  intro mode s1 s2 t _ht h
  have key : ∀ b : ℚ, jsRound (b + 15 * (s1 / t)) ≤ jsRound (b + 15 * (s2 / t)) := by
    intro b
    unfold jsRound
    apply Int.floor_le_floor
    linarith
  cases mode
  · show jsRound ((10 : ℚ) + 15 * (s1 / t)) ≤ jsRound (10 + 15 * (s2 / t))
    exact key 10
  · show jsRound ((15 : ℚ) + 15 * (s1 / t)) ≤ jsRound (15 + 15 * (s2 / t))
    exact key 15

/-- C3 witness: half the total scores at most as much experience as the full
total, in comprehension mode. -/
theorem C3_witness :
    GameRouter.calculateExpGained 1 2 GameMode.comprehension
      ≤ GameRouter.calculateExpGained 2 2 GameMode.comprehension :=
  C3_exp_monotonic GameMode.comprehension 1 2 2 (by norm_num) (by norm_num)

/-- C4: the rank the `update_user_rank` trigger computes equals
`max(1, exp / 100 + 1)` with truncating integer division, and is a
non-decreasing function of accumulated experience. -/
theorem C4_rank_formula_monotone :
    (∀ exp : ℤ, update_user_rank exp = max 1 (Int.tdiv exp 100 + 1))
    ∧ ∀ exp₁ exp₂ : ℤ, exp₁ ≤ exp₂ →
        update_user_rank exp₁ ≤ update_user_rank exp₂ := by
  constructor
  · intro e; rfl
  · intro e1 e2 h
    unfold update_user_rank
    exact max_le_max le_rfl (by have := tdiv_hundred_mono h; omega)

/-- C4 witness: 0 experience ranks at most as high as 250 experience. -/
theorem C4_witness : update_user_rank 0 ≤ update_user_rank 250 :=
  C4_rank_formula_monotone.2 0 250 (by norm_num)

/-- C9: for `0 ≤ score ≤ total` and `total > 0`, `calculateExpGained`
returns an integer between 10 and 25 inclusive in comprehension mode and
between 15 and 30 inclusive in spellbee mode. -/
theorem C9_exp_bounds :
    ∀ (score total : ℚ), 0 ≤ score → score ≤ total → 0 < total →
      (10 ≤ GameRouter.calculateExpGained score total GameMode.comprehension
        ∧ GameRouter.calculateExpGained score total GameMode.comprehension ≤ 25)
      ∧ (15 ≤ GameRouter.calculateExpGained score total GameMode.spellbee
        ∧ GameRouter.calculateExpGained score total GameMode.spellbee ≤ 30) := by
  intro s t hs hst ht
  have hp0 : 0 ≤ s / t := div_nonneg hs ht.le
  have hp1 : s / t ≤ 1 := (div_le_one ht).mpr hst
  refine ⟨⟨?_, ?_⟩, ⟨?_, ?_⟩⟩
  · show (10 : ℤ) ≤ ⌊(10 : ℚ) + 15 * (s / t) + 1 / 2⌋
    exact Int.le_floor.mpr (by push_cast; linarith)
  · show ⌊(10 : ℚ) + 15 * (s / t) + 1 / 2⌋ ≤ 25
    have h26 : ⌊(10 : ℚ) + 15 * (s / t) + 1 / 2⌋ < 26 :=
      Int.floor_lt.mpr (by push_cast; linarith)
    omega
  · show (15 : ℤ) ≤ ⌊(15 : ℚ) + 15 * (s / t) + 1 / 2⌋
    exact Int.le_floor.mpr (by push_cast; linarith)
  · show ⌊(15 : ℚ) + 15 * (s / t) + 1 / 2⌋ ≤ 30
    have h31 : ⌊(15 : ℚ) + 15 * (s / t) + 1 / 2⌋ < 31 :=
      Int.floor_lt.mpr (by push_cast; linarith)
    omega

/-- C9 witness: the bounds at score 0 of total 1. -/
theorem C9_witness :
    (10 ≤ GameRouter.calculateExpGained 0 1 GameMode.comprehension
      ∧ GameRouter.calculateExpGained 0 1 GameMode.comprehension ≤ 25)
    ∧ (15 ≤ GameRouter.calculateExpGained 0 1 GameMode.spellbee
      ∧ GameRouter.calculateExpGained 0 1 GameMode.spellbee ≤ 30) :=
  C9_exp_bounds 0 1 (by norm_num) (by norm_num) (by norm_num)

/-- C5: for every authenticated caller and every queue state, `leaveQueue`
issues exactly one delete, filtered on `player_id = user.id`: afterwards the
caller has no entry left, and every other player's entries are unchanged
(same multiplicity). -/
theorem C5_leave_queue_frame :
    ∀ (uid : String) (q : List Matchmaking.QueueEntry),
      (Matchmaking.leaveQueue uid).length = 1
      ∧ (∀ e ∈ Matchmaking.applyOps q (Matchmaking.leaveQueue uid), e.player_id ≠ uid)
      ∧ (∀ e : Matchmaking.QueueEntry, e.player_id ≠ uid →
          (Matchmaking.applyOps q (Matchmaking.leaveQueue uid)).count e = q.count e) := by
  intro uid q
  have hres : Matchmaking.applyOps q (Matchmaking.leaveQueue uid)
      = q.filter (fun e => e.player_id != uid) := rfl
  refine ⟨rfl, ?_, ?_⟩
  · intro e he
    rw [hres] at he
    have hp := (List.mem_filter.mp he).2
    simpa [bne_iff_ne] using hp
  · intro e he
    rw [hres]
    exact List.count_filter (by simpa [bne_iff_ne] using he)

/-- C5 witness: with two queued players, leaving removes the caller's entry
and keeps the other player's entry count unchanged. -/
theorem C5_witness :
    (Matchmaking.leaveQueue "u1").length = 1
    ∧ (Matchmaking.applyOps
          [⟨"u1", GameMode.spellbee, 1⟩, ⟨"u2", GameMode.comprehension, 1⟩]
          (Matchmaking.leaveQueue "u1")).count ⟨"u2", GameMode.comprehension, 1⟩
        = [(⟨"u1", GameMode.spellbee, 1⟩ : Matchmaking.QueueEntry),
            ⟨"u2", GameMode.comprehension, 1⟩].count ⟨"u2", GameMode.comprehension, 1⟩ := by
  have h := C5_leave_queue_frame "u1"
    [⟨"u1", GameMode.spellbee, 1⟩, ⟨"u2", GameMode.comprehension, 1⟩]
  exact ⟨h.1, h.2.2 ⟨"u2", GameMode.comprehension, 1⟩ (by decide)⟩

/-- C10: a successful `joinQueue` (delete all of the caller's rows, then
insert one fresh row) leaves the caller with exactly one queue entry,
whatever they had before, and leaves every other player's entries unchanged
(same multiplicity). -/
theorem C10_join_exactly_one :
    ∀ (uid : String) (gameMode : GameMode) (q : List Matchmaking.QueueEntry),
      ((Matchmaking.applyOps q (Matchmaking.joinQueue uid gameMode)).countP
          fun e => e.player_id == uid) = 1
      ∧ ∀ e : Matchmaking.QueueEntry, e.player_id ≠ uid →
          (Matchmaking.applyOps q (Matchmaking.joinQueue uid gameMode)).count e
            = q.count e := by
  intro uid mode q
  have hres : Matchmaking.applyOps q (Matchmaking.joinQueue uid mode)
      = (q.filter fun e => e.player_id != uid) ++ [⟨uid, mode, 1⟩] := rfl
  constructor
  · rw [hres, List.countP_append, List.countP_filter]
    have h0 : (q.countP fun e => e.player_id == uid && (e.player_id != uid)) = 0 := by
      apply List.countP_eq_zero.mpr
      intro e _
      simp [bne]
    rw [h0]
    simp
  · intro e he
    have hcf : List.count e (q.filter fun x => x.player_id != uid) = q.count e :=
      List.count_filter (by simpa [bne_iff_ne] using he)
    rw [hres, List.count_append, hcf]
    have h1 : List.count e [(⟨uid, mode, 1⟩ : Matchmaking.QueueEntry)] = 0 := by
      apply List.count_eq_zero.mpr
      simp only [List.mem_singleton]
      intro hcontra
      exact he (by rw [hcontra])
    omega

/-- C10 witness: joining with two stale entries of the caller leaves the
caller exactly one entry and the other player's entry untouched. -/
theorem C10_witness :
    ((Matchmaking.applyOps
        [⟨"u1", GameMode.spellbee, 1⟩, ⟨"u2", GameMode.comprehension, 1⟩,
          ⟨"u1", GameMode.comprehension, 1⟩]
        (Matchmaking.joinQueue "u1" GameMode.comprehension)).countP
        fun e => e.player_id == "u1") = 1
    ∧ (Matchmaking.applyOps
          [⟨"u1", GameMode.spellbee, 1⟩, ⟨"u2", GameMode.comprehension, 1⟩,
            ⟨"u1", GameMode.comprehension, 1⟩]
          (Matchmaking.joinQueue "u1" GameMode.comprehension)).count
          ⟨"u2", GameMode.comprehension, 1⟩
        = [(⟨"u1", GameMode.spellbee, 1⟩ : Matchmaking.QueueEntry),
            ⟨"u2", GameMode.comprehension, 1⟩,
            ⟨"u1", GameMode.comprehension, 1⟩].count ⟨"u2", GameMode.comprehension, 1⟩ := by
  have h := C10_join_exactly_one "u1" GameMode.comprehension
    [⟨"u1", GameMode.spellbee, 1⟩, ⟨"u2", GameMode.comprehension, 1⟩,
      ⟨"u1", GameMode.comprehension, 1⟩]
  exact ⟨h.1, h.2 ⟨"u2", GameMode.comprehension, 1⟩ (by decide)⟩

/-- In the ComprehensionBattle flow, the only event that moves the phase
backwards is a re-fired content load, which lands in the reading phase. -/
theorem cb_phase_decrease (s : ComprehensionBattle.State) (e : ComprehensionBattle.Event) :
    ComprehensionBattle.phaseIdx (ComprehensionBattle.step s e).phase
        < ComprehensionBattle.phaseIdx s.phase →
      (∃ qs, e = ComprehensionBattle.Event.contentLoaded qs)
      ∧ (ComprehensionBattle.step s e).phase = ComprehensionBattle.Phase.reading := by
  cases e <;> intro hlt <;>
    simp only [ComprehensionBattle.step, ComprehensionBattle.load,
      ComprehensionBattle.readingTick, ComprehensionBattle.startQuestions,
      ComprehensionBattle.quizTick, ComprehensionBattle.select,
      ComprehensionBattle.next, ComprehensionBattle.previous,
      ComprehensionBattle.finish] at hlt ⊢ <;>
    (try split_ifs at hlt ⊢) <;>
    simp_all [ComprehensionBattle.phaseIdx]

/-- In the ComprehensionBattle flow, the only event that moves the current
question backwards is the Previous button, which stays in the questions
phase and steps back exactly one question. -/
theorem cb_cq_decrease (s : ComprehensionBattle.State) (e : ComprehensionBattle.Event) :
    (ComprehensionBattle.step s e).currentQuestion < s.currentQuestion →
      e = ComprehensionBattle.Event.previousQuestion
      ∧ s.phase = ComprehensionBattle.Phase.questions
      ∧ (ComprehensionBattle.step s e).phase = ComprehensionBattle.Phase.questions
      ∧ (ComprehensionBattle.step s e).currentQuestion = s.currentQuestion - 1 := by
  cases e <;> intro hlt <;>
    simp only [ComprehensionBattle.step, ComprehensionBattle.load,
      ComprehensionBattle.readingTick, ComprehensionBattle.startQuestions,
      ComprehensionBattle.quizTick, ComprehensionBattle.select,
      ComprehensionBattle.next, ComprehensionBattle.previous,
      ComprehensionBattle.finish] at hlt ⊢ <;>
    (try split_ifs at hlt ⊢) <;>
    simp_all

/-- In the SpellingBee flow, no event moves the phase backwards, re-enters
loading, or moves the current word backwards. -/
theorem sb_forward (s : SpellingBee.State) (e : SpellingBee.Event) :
    SpellingBee.phaseIdx s.phase ≤ SpellingBee.phaseIdx (SpellingBee.step s e).phase
    ∧ s.currentWord ≤ (SpellingBee.step s e).currentWord
    ∧ ((SpellingBee.step s e).loading = true → s.loading = true) := by
  cases e <;>
    simp only [SpellingBee.step, SpellingBee.load, SpellingBee.tick,
      SpellingBee.setInput, SpellingBee.nextWord, SpellingBee.skipWord,
      SpellingBee.toggle, SpellingBee.finish] <;>
    (try split_ifs) <;>
    simp_all [SpellingBee.phaseIdx]

/-- C6 (counterexample): two reachable interactions return the Comprehension
Battle flow to an earlier point.  After loading two questions, starting the
questions, answering one and advancing, pressing Previous decreases the
current question while staying in the questions phase; and from that same
questions phase, the content-load effect re-firing (its dependency is a
fresh closure every render) moves the phase back to `reading`. -/
theorem C6_counterexample :
    (ComprehensionBattle.run ComprehensionBattle.init
        [ComprehensionBattle.Event.contentLoaded demoQuestions,
          ComprehensionBattle.Event.imReady,
          ComprehensionBattle.Event.selectAnswer "1",
          ComprehensionBattle.Event.nextQuestion]).currentQuestion = 1
    ∧ (ComprehensionBattle.run ComprehensionBattle.init
        [ComprehensionBattle.Event.contentLoaded demoQuestions,
          ComprehensionBattle.Event.imReady,
          ComprehensionBattle.Event.selectAnswer "1",
          ComprehensionBattle.Event.nextQuestion,
          ComprehensionBattle.Event.previousQuestion]).currentQuestion = 0
    ∧ (ComprehensionBattle.run ComprehensionBattle.init
        [ComprehensionBattle.Event.contentLoaded demoQuestions,
          ComprehensionBattle.Event.imReady,
          ComprehensionBattle.Event.selectAnswer "1",
          ComprehensionBattle.Event.nextQuestion,
          ComprehensionBattle.Event.previousQuestion]).phase
        = ComprehensionBattle.Phase.questions
    ∧ (ComprehensionBattle.run ComprehensionBattle.init
        [ComprehensionBattle.Event.contentLoaded demoQuestions,
          ComprehensionBattle.Event.imReady]).phase
        = ComprehensionBattle.Phase.questions
    ∧ (ComprehensionBattle.run ComprehensionBattle.init
        [ComprehensionBattle.Event.contentLoaded demoQuestions,
          ComprehensionBattle.Event.imReady,
          ComprehensionBattle.Event.contentLoaded demoQuestions]).phase
        = ComprehensionBattle.Phase.reading := by
  decide

/-- C6 (amended): the Spelling Bee flow moves forwards only — its phase
never goes back, loading never re-enters, and the word index never
decreases.  In the Comprehension Battle flow, exactly two backward
transitions are reachable: the Previous button, the only event that moves
the item index backwards, steps back one question and stays in the
questions phase; and the re-fired content-load effect, the only event that
moves the phase backwards, returns the flow to the reading phase. -/
theorem C6_forward_only_amended :
    (∀ (s : ComprehensionBattle.State) (e : ComprehensionBattle.Event),
        ((ComprehensionBattle.step s e).currentQuestion < s.currentQuestion →
          e = ComprehensionBattle.Event.previousQuestion
          ∧ s.phase = ComprehensionBattle.Phase.questions
          ∧ (ComprehensionBattle.step s e).phase = ComprehensionBattle.Phase.questions
          ∧ (ComprehensionBattle.step s e).currentQuestion = s.currentQuestion - 1)
      ∧ (ComprehensionBattle.phaseIdx (ComprehensionBattle.step s e).phase
            < ComprehensionBattle.phaseIdx s.phase →
          (∃ qs, e = ComprehensionBattle.Event.contentLoaded qs)
          ∧ (ComprehensionBattle.step s e).phase = ComprehensionBattle.Phase.reading))
    ∧ (∀ (s : SpellingBee.State) (e : SpellingBee.Event),
        SpellingBee.phaseIdx s.phase ≤ SpellingBee.phaseIdx (SpellingBee.step s e).phase
        ∧ s.currentWord ≤ (SpellingBee.step s e).currentWord
        ∧ ((SpellingBee.step s e).loading = true → s.loading = true)) :=
  ⟨fun s e => ⟨cb_cq_decrease s e, cb_phase_decrease s e⟩, fun s e => sb_forward s e⟩

/-- C6 witness: the amended theorem applied to a concrete questions-phase
state on question 1, once receiving the Previous event (item goes back one,
phase stays `questions`) and once receiving a re-fired content load (phase
goes back to `reading`). -/
theorem C6_witness :
    (ComprehensionBattle.Event.previousQuestion
          = ComprehensionBattle.Event.previousQuestion
        ∧ (⟨demoQuestions, 1, "", [none, none], 300,
              ComprehensionBattle.Phase.questions, 0, 0⟩ :
            ComprehensionBattle.State).phase = ComprehensionBattle.Phase.questions
        ∧ (ComprehensionBattle.step
            ⟨demoQuestions, 1, "", [none, none], 300,
              ComprehensionBattle.Phase.questions, 0, 0⟩
            ComprehensionBattle.Event.previousQuestion).phase
            = ComprehensionBattle.Phase.questions
        ∧ (ComprehensionBattle.step
            ⟨demoQuestions, 1, "", [none, none], 300,
              ComprehensionBattle.Phase.questions, 0, 0⟩
            ComprehensionBattle.Event.previousQuestion).currentQuestion = 1 - 1)
    ∧ ((∃ qs, ComprehensionBattle.Event.contentLoaded demoQuestions
          = ComprehensionBattle.Event.contentLoaded qs)
        ∧ (ComprehensionBattle.step
            ⟨demoQuestions, 1, "", [none, none], 300,
              ComprehensionBattle.Phase.questions, 0, 0⟩
            (ComprehensionBattle.Event.contentLoaded demoQuestions)).phase
            = ComprehensionBattle.Phase.reading) := by
  have h := C6_forward_only_amended.1
    ⟨demoQuestions, 1, "", [none, none], 300,
      ComprehensionBattle.Phase.questions, 0, 0⟩
    ComprehensionBattle.Event.previousQuestion
  have h2 := C6_forward_only_amended.1
    ⟨demoQuestions, 1, "", [none, none], 300,
      ComprehensionBattle.Phase.questions, 0, 0⟩
    (ComprehensionBattle.Event.contentLoaded demoQuestions)
  exact ⟨h.1 (by decide), h2.2 (by decide)⟩

/-- If every remaining provider call fails (returns `none`), the provider
loop yields `none`. -/
theorem tryProvidersAux_all_none (env : Nat → AIService.FetchBehavior) :
    ∀ (ps : List AIService.AIProvider) (i : Nat),
      (∀ k < ps.length, AIService.callProvider (env (i + k)) = none) →
      AIService.tryProvidersAux env ps i = none := by
  intro ps
  induction ps with
  | nil => intro i _; rfl
  | cons p rest ih =>
    intro i h
    have h0 : AIService.callProvider (env i) = none := by
      simpa using h 0 (by simp)
    simp only [AIService.tryProvidersAux, h0]
    refine ih (i + 1) ?_
    intro k hk
    have hk1 := h (k + 1) (by simpa using Nat.succ_lt_succ hk)
    rwa [show i + (k + 1) = i + 1 + k by omega] at hk1

/-- If the `k`-th remaining provider call is the first to succeed, the
provider loop yields its response. -/
theorem tryProvidersAux_first_some (env : Nat → AIService.FetchBehavior) :
    ∀ (ps : List AIService.AIProvider) (i k : Nat) (r : String),
      k < ps.length →
      AIService.callProvider (env (i + k)) = some r →
      (∀ j < k, AIService.callProvider (env (i + j)) = none) →
      AIService.tryProvidersAux env ps i = some r := by
  intro ps
  induction ps with
  | nil => intro i k r hk; exact absurd hk (by simp)
  | cons p rest ih =>
    intro i k r hk hr hj
    cases k with
    | zero =>
      simp only [Nat.add_zero] at hr
      simp only [AIService.tryProvidersAux, hr]
    | succ k' =>
      have h0 : AIService.callProvider (env i) = none := by
        simpa using hj 0 (Nat.succ_pos _)
      simp only [AIService.tryProvidersAux, h0]
      refine ih (i + 1) k' r (by simpa using Nat.lt_of_succ_lt_succ hk) ?_ ?_
      · rwa [show i + 1 + k' = i + (k' + 1) by omega]
      · intro j hjk
        have := hj (j + 1) (by omega)
        rwa [show i + (j + 1) = i + 1 + j by omega] at this

/-- C7: when no local keyword rule fires, `generateResponse` never
propagates a provider error: providers are tried in order, each failure
silently advances to the next, the first success supplies the reply, and if
all providers fail the reply is the canned `getSimulatedResponse`. -/
theorem C7_fallback_chain :
    ∀ (userMessage : String) (env : Nat → AIService.FetchBehavior) (rnd : Nat),
      ((∀ i < AIService.providers.length, AIService.callProvider (env i) = none) →
        AIService.generateResponse none userMessage env rnd
          = AIService.getSimulatedResponse userMessage rnd)
      ∧ (∀ i r, i < AIService.providers.length →
          AIService.callProvider (env i) = some r →
          (∀ j < i, AIService.callProvider (env j) = none) →
          (AIService.generateResponse none userMessage env rnd).message = r) := by
  intro msg env rnd
  constructor
  · intro h
    have ht : AIService.tryProviders env = none := by
      refine tryProvidersAux_all_none env AIService.providers 0 ?_
      intro k hk
      simpa using h k hk
    simp only [AIService.generateResponse, AIService.tryProviders] at ht ⊢
    rw [ht]
  · intro i r hi hr hj
    have ht : AIService.tryProviders env = some r := by
      refine tryProvidersAux_first_some env AIService.providers 0 i r hi ?_ ?_
      · simpa using hr
      · intro j hji
        simpa using hj j hji
    simp only [AIService.generateResponse, AIService.tryProviders] at ht ⊢
    rw [ht]

/-- C7 witness: with every provider failing on a network error, the chat
reply is exactly the canned local response. -/
theorem C7_witness :
    AIService.generateResponse none "hello" demoEnv 0
      = AIService.getSimulatedResponse "hello" 0 :=
  (C7_fallback_chain "hello" demoEnv 0).1 (fun _ _ => rfl)

/-- C8: the abort timer of every outbound chat call is 10000 milliseconds,
and on a timeout — as on a network failure or a non-OK HTTP status —
`callProvider` returns `null` instead of raising, so the caller proceeds to
its next fallback. -/
theorem C8_timeout_silent_failure :
    AIService.providerTimeoutMs = 10000
    ∧ ∀ b : AIService.FetchBehavior,
        (10000 ≤ b.elapsedMs ∨ b.result = AIService.NetResult.netError
          ∨ ∃ status, b.result = AIService.NetResult.httpNotOk status) →
        AIService.callProvider b = none := by
  refine ⟨rfl, ?_⟩
  intro b hb
  obtain ⟨ms, res⟩ := b
  rcases hb with h | h | ⟨st, h⟩ <;>
    simp_all only [] <;>
    simp [AIService.callProvider, AIService.callProviderTry, AIService.providerTimeoutMs] <;>
    split_ifs <;>
    simp_all

/-- C8 witness: a call that hits the 10000 ms deadline yields `null` even if
a well-formed response eventually arrived. -/
theorem C8_witness :
    AIService.callProvider
        ⟨10000, AIService.NetResult.okParsed
          (some "Photosynthesis converts light energy into glucose.")⟩ = none :=
  C8_timeout_silent_failure.2 _ (Or.inl (le_refl 10000))
